import Mathlib

/-!
Verification development for the coordination layer of the Channeling LLM
repository: the completion-reconciliation listener (`redis_subscriber.py`),
the stampede-safe fetch caches (`transcript_service.py`,
`video_detail_service.py`), the work dispatcher (`report_controller.py`) and
the retry-guarded external call (`report_service.analyze_viewer_retention`).

Each definition is a shallow embedding of the corresponding Python function:
stateful effects (database writes, redis operations, service invocations,
sleeps) are made explicit as traces in the returned value, library calls
(`json.loads`) are passed in as oracles, and machine behaviour that the code
catches (Python exceptions) is represented by explicit outcome constructors.
-/

set_option maxRecDepth 8000

namespace Channeling

/-! ## Python value model

`handle_message` manipulates the results of `json.loads` through `.get` and
truthiness tests, so we embed the small fragment of Python values it touches.
-/

/-- A parsed Python/JSON value, as produced by `json.loads`, restricted to the
shapes the subscriber inspects: `None`, booleans, integers, strings, objects
and arrays. -/
inductive PyVal
  | vnone
  | vbool (b : Bool)
  | vint (n : Int)
  | vstr (s : String)
  | vobj (fields : List (String × PyVal))
  | varr (elems : List PyVal)

namespace PyVal

/-- Python `dict.get`: returns the first binding of the field, or `None`. -/
def get : PyVal → String → PyVal
  | vobj fields, k =>
      match fields.find? (fun p => p.1 == k) with
      | some p => p.2
      | none => vnone
  | _, _ => vnone

/-- Python truthiness: `None`, `False`, `0`, `""`, `{}`, `[]` are falsy. -/
def truthy : PyVal → Bool
  | vnone => false
  | vbool b => b
  | vint n => n != 0
  | vstr s => s != ""
  | vobj fields => !fields.isEmpty
  | varr elems => !elems.isEmpty

/-- Python `==` against a string literal (mixed-type comparison is `False`). -/
def isStr : PyVal → String → Bool
  | vstr t, s => t == s
  | _, _ => false

/-- Python `==` against an integer (`bool` is an `int` subclass in Python, so
`True == 1`); any other type compares unequal. -/
def isInt : PyVal → Int → Bool
  | vint m, n => m == n
  | vbool b, n => (if b then (1 : Int) else 0) == n
  | _, _ => false

end PyVal

/-- The oracle standing for `json.loads`: `none` models a raised
`json.JSONDecodeError`, `some v` a successful parse. -/
abbrev Loads : Type := String → Option PyVal

/-! ## Task model (`domain/task/model/task.py`) -/

/-- The `Status` enum of `task.py`: pending / completed / failed. -/
inductive Status
  | pending
  | completed
  | failed
  deriving Repr, DecidableEq

/-- The `Task` row: the `report_id` foreign key (an integer column) and the
three per-step status columns. -/
structure Task where
  report_id : Int
  overview_status : Status
  analysis_status : Status
  idea_status : Status
  deriving Repr, DecidableEq

/-- The task table as the listener sees it. -/
abbrev TaskDb : Type := List Task

/-- `TaskRepository.find_by_report`: the row whose `report_id` column equals
the given value (`scalar_one_or_none`: `None` when there is no such row).
The id arrives as a parsed JSON value, so the comparison is Python `==`
between the integer column and that value. -/
def find_by_report (db : TaskDb) (report_id : PyVal) : Option Task :=
  db.find? (fun t => report_id.isInt t.report_id)

/-! ## Completion Listener (`redis_subscriber.py`, `handle_message`) -/

/-- The Python exception classes `handle_message` can catch: a JSON decode
failure from either `json.loads` call, the `TypeError` raised by `json.loads`
on a non-string argument, and the `AttributeError` raised by reading
`.overview_status` on `None`. -/
inductive PyErr
  | jsonDecodeError
  | typeError
  | attributeError
  deriving Repr, DecidableEq

/-- Observable outcome of one `handle_message` call: the report-id values it
looked up via `find_by_report`, the task-status writes it issued (the source
issues none: the field records what a write would look like), the report ids
passed to `ReportService.summarize_update_changes`, the exception it caught
and logged (if any), and whether an exception escaped the handler. -/
structure HandleOutcome where
  lookups : List PyVal
  taskWrites : List (PyVal × String × Status)
  summarizeCalls : List PyVal
  caughtError : Option PyErr
  raised : Bool

/-- Embedding of `ReportUpdateSubscriber.handle_message`.

Control flow of the source, line by line: parse the outer envelope with
`json.loads` (decode error caught: warning log, return); read `message`; if
falsy, return; `json.loads` the inner message (a non-string argument raises
`TypeError`, caught by the final `except Exception`); read `status`, `step`,
`report`; if `report` is falsy, or `status != "success"`, or `step` is not in
`["overview", "analysis"]`, ignore and return; otherwise
`find_by_report(report_id)` and read `task.overview_status` and
`task.analysis_status` (when the lookup returned `None` this raises
`AttributeError`, caught by the final `except Exception`); when both are
`COMPLETED`, call `summarize_update_changes(report_id)`.  No write to the
task row occurs anywhere in the handler. -/
def handle_message (loads : Loads) (db : TaskDb) (raw : String) : HandleOutcome :=
  match loads raw with
  | none =>
      { lookups := [], taskWrites := [], summarizeCalls := [],
        caughtError := some PyErr.jsonDecodeError, raised := false }
  | some data_json =>
      let inner_message := data_json.get "message"
      if !inner_message.truthy then
        { lookups := [], taskWrites := [], summarizeCalls := [],
          caughtError := none, raised := false }
      else
        match inner_message with
        | PyVal.vstr s =>
            match loads s with
            | none =>
                { lookups := [], taskWrites := [], summarizeCalls := [],
                  caughtError := some PyErr.jsonDecodeError, raised := false }
            | some payload =>
                let status := payload.get "status"
                let step := payload.get "step"
                let report_id := payload.get "report"
                if !report_id.truthy || !status.isStr "success" ||
                    (!step.isStr "overview" && !step.isStr "analysis") then
                  { lookups := [], taskWrites := [], summarizeCalls := [],
                    caughtError := none, raised := false }
                else
                  match find_by_report db report_id with
                  | none =>
                      { lookups := [report_id], taskWrites := [], summarizeCalls := [],
                        caughtError := some PyErr.attributeError, raised := false }
                  | some task =>
                      if task.overview_status == Status.completed &&
                          task.analysis_status == Status.completed then
                        { lookups := [report_id], taskWrites := [],
                          summarizeCalls := [report_id],
                          caughtError := none, raised := false }
                      else
                        { lookups := [report_id], taskWrites := [], summarizeCalls := [],
                          caughtError := none, raised := false }
        | _ =>
            { lookups := [], taskWrites := [], summarizeCalls := [],
              caughtError := some PyErr.typeError, raised := false }

/-- One delivery to the listener: the task table as it stands when
`find_by_report` runs (the external workers may have advanced it between
deliveries; nothing in this repository does), and the raw channel payload. -/
structure Delivery where
  db : TaskDb
  raw : String

/-- The subscribe loop of `ReportUpdateSubscriber.start`: messages are handed
to `handle_message` one at a time; an exception escaping `handle_message`
would abort the `async for` loop, so processing stops at the first raising
delivery.  Returns all summarize invocations and the number of deliveries
processed. -/
def runListener (loads : Loads) : List Delivery → List PyVal × Nat
  | [] => ([], 0)
  | d :: rest =>
      let out := handle_message loads d.db d.raw
      if out.raised then (out.summarizeCalls, 1)
      else
        let next := runListener loads rest
        (out.summarizeCalls ++ next.1, next.2 + 1)

/-! ## Listener helper lemmas -/

/-- `handle_message` catches `json.JSONDecodeError` and every other
`Exception`; no exception escapes, for any input. -/
theorem handle_message_never_raises (loads : Loads) (db : TaskDb) (raw : String) :
    (handle_message loads db raw).raised = false := by
  unfold handle_message
  dsimp only
  repeat' split
  all_goals rfl

/-- The subscribe loop always advances past the current message. -/
theorem runListener_advances (loads : Loads) (db : TaskDb) (raw : String)
    (rest : List Delivery) :
    (runListener loads (⟨db, raw⟩ :: rest)).2 = (runListener loads rest).2 + 1 := by
  simp only [runListener, handle_message_never_raises, Bool.false_eq_true, if_false]

/-- Evaluation of `handle_message` on a delivery that passes every filter and
finds a task row: the task is loaded, nothing is written, and
`summarize_update_changes` is invoked exactly when both tracked statuses are
already `COMPLETED`. -/
theorem handle_message_valid_eval (loads : Loads) (db : TaskDb) (raw : String)
    (d p : PyVal) (s : String) (t : Task)
    (h1 : loads raw = some d)
    (h2 : PyVal.get d "message" = PyVal.vstr s)
    (hs : s ≠ "")
    (h3 : loads s = some p)
    (h4 : (PyVal.get p "report").truthy = true)
    (h5 : (PyVal.get p "status").isStr "success" = true)
    (h6 : (PyVal.get p "step").isStr "overview" = true ∨
          (PyVal.get p "step").isStr "analysis" = true)
    (h7 : find_by_report db (PyVal.get p "report") = some t) :
    handle_message loads db raw =
      (if t.overview_status == Status.completed &&
          t.analysis_status == Status.completed then
        { lookups := [PyVal.get p "report"], taskWrites := [],
          summarizeCalls := [PyVal.get p "report"],
          caughtError := none, raised := false }
      else
        { lookups := [PyVal.get p "report"], taskWrites := [],
          summarizeCalls := [], caughtError := none, raised := false }) := by
  have htr : (!(PyVal.vstr s).truthy) = false := by simp [PyVal.truthy, hs]
  have hcond : (!(PyVal.get p "report").truthy ||
      !(PyVal.get p "status").isStr "success" ||
      (!(PyVal.get p "step").isStr "overview" &&
       !(PyVal.get p "step").isStr "analysis")) = false := by
    cases h6 with
    | inl h => simp [h4, h5, h]
    | inr h => simp [h4, h5, h]
  simp only [handle_message, h1, h2, htr, h3, hcond, h7,
    Bool.false_eq_true, if_false]

/-! ## Concrete listener fixtures

A concrete `json.loads` table covering the payload shapes used in the
counterexamples and witnesses: well-formed success notifications for the two
recognized steps of report 7, an envelope whose inner payload has no `status`
field, an envelope whose inner payload has `status = "failure"`, and
everything else failing to parse. -/

def demoLoads : Loads := fun s =>
  if s == "envOverview" then
    some (PyVal.vobj [("userId", PyVal.vint 1), ("message", PyVal.vstr "payloadOverview")])
  else if s == "envAnalysis" then
    some (PyVal.vobj [("userId", PyVal.vint 1), ("message", PyVal.vstr "payloadAnalysis")])
  else if s == "payloadOverview" then
    some (PyVal.vobj [("status", PyVal.vstr "success"), ("step", PyVal.vstr "overview"),
      ("report", PyVal.vint 7)])
  else if s == "payloadAnalysis" then
    some (PyVal.vobj [("status", PyVal.vstr "success"), ("step", PyVal.vstr "analysis"),
      ("report", PyVal.vint 7)])
  else if s == "envNoStatus" then
    some (PyVal.vobj [("userId", PyVal.vint 1), ("message", PyVal.vstr "payloadNoStatus")])
  else if s == "payloadNoStatus" then
    some (PyVal.vobj [("step", PyVal.vstr "overview"), ("report", PyVal.vint 7)])
  else if s == "envFailure" then
    some (PyVal.vobj [("userId", PyVal.vint 1), ("message", PyVal.vstr "payloadFailure")])
  else if s == "payloadFailure" then
    some (PyVal.vobj [("status", PyVal.vstr "failure"), ("step", PyVal.vstr "overview"),
      ("report", PyVal.vint 7)])
  else none

/-- A task row for report 7 whose two tracked steps are both already
`COMPLETED` (as written by the external workers before either notification is
processed — the simultaneous-completion case). -/
def taskBothCompleted : Task :=
  { report_id := 7, overview_status := Status.completed,
    analysis_status := Status.completed, idea_status := Status.completed }

/-- A task row for report 7 as the dispatcher creates it: both tracked steps
`PENDING`. -/
def taskBothPending : Task :=
  { report_id := 7, overview_status := Status.pending,
    analysis_status := Status.pending, idea_status := Status.completed }

/-! ## Claim C1: exactly-once reconciliation trigger -/

/-- Claim C1, counterexample.  When both step statuses are already
`COMPLETED` at the time each of the two success notifications is processed
(both workers finished and updated the row before either notification was
consumed — the "simultaneous" case of the claim), `handle_message` invokes
`summarize_update_changes` at both deliveries: the reconciliation action
fires twice for report 7, not exactly once. -/
theorem C1_counterexample :
    ((runListener demoLoads
        [⟨[taskBothCompleted], "envOverview"⟩,
         ⟨[taskBothCompleted], "envAnalysis"⟩]).1).length = 2 ∧ (2 : Nat) ≠ 1 := by
  exact ⟨rfl, by decide⟩

/-- Claim C1, amended.  `handle_message` triggers the reconciliation action
at every success notification that observes both tracked statuses
`COMPLETED`; it never updates the statuses itself and keeps no triggered
flag.  Hence over the two step-completion deliveries for a unit of work, the
number of `summarize_update_changes` invocations equals the number of
deliveries whose task snapshot has both steps `COMPLETED` (0, 1 or 2): the
action fires exactly once iff exactly one of the two deliveries observes
both steps `COMPLETED`. -/
theorem C1_trigger_count_per_observation (loads : Loads)
    (db1 db2 : TaskDb) (raw1 raw2 : String)
    (d1 d2 p1 p2 : PyVal) (s1 s2 : String) (t1 t2 : Task)
    (h11 : loads raw1 = some d1) (h12 : PyVal.get d1 "message" = PyVal.vstr s1)
    (h1s : s1 ≠ "") (h13 : loads s1 = some p1)
    (h14 : (PyVal.get p1 "report").truthy = true)
    (h15 : (PyVal.get p1 "status").isStr "success" = true)
    (h16 : (PyVal.get p1 "step").isStr "overview" = true ∨
           (PyVal.get p1 "step").isStr "analysis" = true)
    (h17 : find_by_report db1 (PyVal.get p1 "report") = some t1)
    (h21 : loads raw2 = some d2) (h22 : PyVal.get d2 "message" = PyVal.vstr s2)
    (h2s : s2 ≠ "") (h23 : loads s2 = some p2)
    (h24 : (PyVal.get p2 "report").truthy = true)
    (h25 : (PyVal.get p2 "status").isStr "success" = true)
    (h26 : (PyVal.get p2 "step").isStr "overview" = true ∨
           (PyVal.get p2 "step").isStr "analysis" = true)
    (h27 : find_by_report db2 (PyVal.get p2 "report") = some t2) :
    ((runListener loads [⟨db1, raw1⟩, ⟨db2, raw2⟩]).1).length =
      (if t1.overview_status = Status.completed ∧
          t1.analysis_status = Status.completed then 1 else 0) +
      (if t2.overview_status = Status.completed ∧
          t2.analysis_status = Status.completed then 1 else 0) := by
  have e1 := handle_message_valid_eval loads db1 raw1 d1 p1 s1 t1
    h11 h12 h1s h13 h14 h15 h16 h17
  have e2 := handle_message_valid_eval loads db2 raw2 d2 p2 s2 t2
    h21 h22 h2s h23 h24 h25 h26 h27
  simp only [runListener, e1, e2]
  by_cases hb1 : t1.overview_status = Status.completed ∧
      t1.analysis_status = Status.completed <;>
    by_cases hb2 : t2.overview_status = Status.completed ∧
        t2.analysis_status = Status.completed <;>
      simp [hb1, hb2]

/-- Claim C1, witness for the amended theorem: instantiated at the two
success notifications for report 7, the first observing a still-pending
snapshot, the second observing the both-completed snapshot: one invocation
in total. -/
theorem C1_trigger_count_witness :
    ((runListener demoLoads
        [⟨[taskBothPending], "envOverview"⟩,
         ⟨[taskBothCompleted], "envAnalysis"⟩]).1).length =
      (if taskBothPending.overview_status = Status.completed ∧
          taskBothPending.analysis_status = Status.completed then 1 else 0) +
      (if taskBothCompleted.overview_status = Status.completed ∧
          taskBothCompleted.analysis_status = Status.completed then 1 else 0) := by
  exact C1_trigger_count_per_observation demoLoads
    [taskBothPending] [taskBothCompleted] "envOverview" "envAnalysis"
    (PyVal.vobj [("userId", PyVal.vint 1), ("message", PyVal.vstr "payloadOverview")])
    (PyVal.vobj [("userId", PyVal.vint 1), ("message", PyVal.vstr "payloadAnalysis")])
    (PyVal.vobj [("status", PyVal.vstr "success"), ("step", PyVal.vstr "overview"),
      ("report", PyVal.vint 7)])
    (PyVal.vobj [("status", PyVal.vstr "success"), ("step", PyVal.vstr "analysis"),
      ("report", PyVal.vint 7)])
    "payloadOverview" "payloadAnalysis" taskBothPending taskBothCompleted
    rfl rfl (by decide) rfl rfl rfl (Or.inl rfl) rfl
    rfl rfl (by decide) rfl rfl rfl (Or.inr rfl) rfl

/-! ## Claim C2: the listener reads but never writes step statuses -/

/-- Claim C2, counterexample.  A well-formed success notification for step
`overview` of report 7, with the task row present and both steps `PENDING`:
`handle_message` loads the row (the lookup trace is nonempty), but issues no
status write at all — in particular it does not set `overview_status` to
`COMPLETED`. -/
theorem C2_counterexample :
    (handle_message demoLoads [taskBothPending] "envOverview").lookups =
        [PyVal.vint 7] ∧
    (handle_message demoLoads [taskBothPending] "envOverview").caughtError = none ∧
    (handle_message demoLoads [taskBothPending] "envOverview").taskWrites = [] := by
  exact ⟨rfl, rfl, rfl⟩

/-- Claim C2, amended.  On a recognized success notification `handle_message`
loads the task record and reads both step statuses, but it never mutates
them: for every possible input, the set of task-status writes issued by the
Completion Listener is empty.  (No code in this repository updates the
status columns after the dispatcher creates the row; whoever sets them to
`COMPLETED` — the external workers — does so outside this repository.) -/
theorem C2_listener_never_writes_status (loads : Loads) (db : TaskDb)
    (raw : String) :
    (handle_message loads db raw).taskWrites = [] := by
  unfold handle_message
  dsimp only
  repeat' split
  all_goals rfl

/-! ## Claim C8: poison-message resilience -/

/-- Claim C8.  A delivery that fails outer JSON parsing, or whose envelope
has no usable `message`, or whose inner payload's `status` is not the string
`"success"` (missing status field and `status = "failure"` both included),
produces no task write, no reconciliation call and no escaped exception, and
the subscribe loop still processes the remaining messages. -/
theorem C8_poison_message_resilience (loads : Loads) (db : TaskDb)
    (raw : String) (rest : List Delivery)
    (h : loads raw = none ∨
      (∃ d, loads raw = some d ∧ (PyVal.get d "message").truthy = false) ∨
      (∃ d s p, loads raw = some d ∧ PyVal.get d "message" = PyVal.vstr s ∧
        loads s = some p ∧ (PyVal.get p "status").isStr "success" = false)) :
    (handle_message loads db raw).taskWrites = [] ∧
    (handle_message loads db raw).summarizeCalls = [] ∧
    (handle_message loads db raw).raised = false ∧
    (runListener loads (⟨db, raw⟩ :: rest)).2 = (runListener loads rest).2 + 1 := by
  refine ⟨?_, ?_, handle_message_never_raises loads db raw,
    runListener_advances loads db raw rest⟩ <;>
  · rcases h with h | ⟨d, hd, hm⟩ | ⟨d, s, p, hd, hm, hp, hst⟩
    · simp only [handle_message, h]
    · simp only [handle_message, hd, hm, Bool.not_false, if_true]
    · by_cases hs : s = ""
      · subst hs
        simp [handle_message, hd, hm, PyVal.truthy]
      · simp only [handle_message, hd, hm, hp, hst]
        simp [PyVal.truthy, hs]

/-- Claim C8, witness: the three poison classes instantiated concretely — a
non-JSON payload, an envelope whose inner payload is missing `status`, and an
envelope whose inner payload has `status = "failure"`, each followed by a
further pending delivery that is still processed. -/
theorem C8_poison_message_witness :
    ((handle_message demoLoads [taskBothPending] "not json").taskWrites = [] ∧
      (handle_message demoLoads [taskBothPending] "not json").summarizeCalls = [] ∧
      (handle_message demoLoads [taskBothPending] "not json").raised = false ∧
      (runListener demoLoads (⟨[taskBothPending], "not json"⟩ ::
        [⟨[taskBothPending], "envOverview"⟩])).2 =
        (runListener demoLoads [⟨[taskBothPending], "envOverview"⟩]).2 + 1) ∧
    ((handle_message demoLoads [taskBothPending] "envNoStatus").taskWrites = [] ∧
      (handle_message demoLoads [taskBothPending] "envNoStatus").summarizeCalls = [] ∧
      (handle_message demoLoads [taskBothPending] "envNoStatus").raised = false ∧
      (runListener demoLoads (⟨[taskBothPending], "envNoStatus"⟩ ::
        [⟨[taskBothPending], "envOverview"⟩])).2 =
        (runListener demoLoads [⟨[taskBothPending], "envOverview"⟩]).2 + 1) ∧
    ((handle_message demoLoads [taskBothPending] "envFailure").taskWrites = [] ∧
      (handle_message demoLoads [taskBothPending] "envFailure").summarizeCalls = [] ∧
      (handle_message demoLoads [taskBothPending] "envFailure").raised = false ∧
      (runListener demoLoads (⟨[taskBothPending], "envFailure"⟩ ::
        [⟨[taskBothPending], "envOverview"⟩])).2 =
        (runListener demoLoads [⟨[taskBothPending], "envOverview"⟩]).2 + 1) := by
  refine ⟨?_, ?_, ?_⟩
  · exact C8_poison_message_resilience demoLoads [taskBothPending] "not json"
      [⟨[taskBothPending], "envOverview"⟩] (Or.inl rfl)
  · exact C8_poison_message_resilience demoLoads [taskBothPending] "envNoStatus"
      [⟨[taskBothPending], "envOverview"⟩]
      (Or.inr (Or.inr ⟨PyVal.vobj [("userId", PyVal.vint 1),
        ("message", PyVal.vstr "payloadNoStatus")], "payloadNoStatus",
        PyVal.vobj [("step", PyVal.vstr "overview"), ("report", PyVal.vint 7)],
        rfl, rfl, rfl, rfl⟩))
  · exact C8_poison_message_resilience demoLoads [taskBothPending] "envFailure"
      [⟨[taskBothPending], "envOverview"⟩]
      (Or.inr (Or.inr ⟨PyVal.vobj [("userId", PyVal.vint 1),
        ("message", PyVal.vstr "payloadFailure")], "payloadFailure",
        PyVal.vobj [("status", PyVal.vstr "failure"), ("step", PyVal.vstr "overview"),
          ("report", PyVal.vint 7)],
        rfl, rfl, rfl, rfl⟩))

/-! ## Claim C10: success notification with no matching task row -/

/-- Claim C10.  For a well-formed success notification with a recognized
step whose report id matches no task row, `find_by_report` returns `None`
(`scalar_one_or_none`), the subsequent attribute access raises an
`AttributeError` that is caught inside `handle_message`, no task write and no
reconciliation call happen, no exception escapes, and the subscribe loop
still processes the remaining messages. -/
theorem C10_missing_task_row_caught (loads : Loads) (db : TaskDb)
    (raw : String) (rest : List Delivery) (d p : PyVal) (s : String)
    (h1 : loads raw = some d)
    (h2 : PyVal.get d "message" = PyVal.vstr s)
    (hs : s ≠ "")
    (h3 : loads s = some p)
    (h4 : (PyVal.get p "report").truthy = true)
    (h5 : (PyVal.get p "status").isStr "success" = true)
    (h6 : (PyVal.get p "step").isStr "overview" = true ∨
          (PyVal.get p "step").isStr "analysis" = true)
    (h7 : ∀ t ∈ db, (PyVal.get p "report").isInt t.report_id = false) :
    find_by_report db (PyVal.get p "report") = none ∧
    (handle_message loads db raw).caughtError = some PyErr.attributeError ∧
    (handle_message loads db raw).taskWrites = [] ∧
    (handle_message loads db raw).summarizeCalls = [] ∧
    (handle_message loads db raw).raised = false ∧
    (runListener loads (⟨db, raw⟩ :: rest)).2 = (runListener loads rest).2 + 1 := by
  have hfind : find_by_report db (PyVal.get p "report") = none := by
    unfold find_by_report
    exact List.find?_eq_none.mpr (by intro t ht; simp [h7 t ht])
  have htr : (!(PyVal.vstr s).truthy) = false := by simp [PyVal.truthy, hs]
  have hcond : (!(PyVal.get p "report").truthy ||
      !(PyVal.get p "status").isStr "success" ||
      (!(PyVal.get p "step").isStr "overview" &&
       !(PyVal.get p "step").isStr "analysis")) = false := by
    cases h6 with
    | inl h => simp [h4, h5, h]
    | inr h => simp [h4, h5, h]
  have heval : handle_message loads db raw =
      { lookups := [PyVal.get p "report"], taskWrites := [], summarizeCalls := [],
        caughtError := some PyErr.attributeError, raised := false } := by
    simp only [handle_message, h1, h2, htr, h3, hcond, hfind,
      Bool.false_eq_true, if_false]
  exact ⟨hfind, by rw [heval], by rw [heval], by rw [heval], by rw [heval],
    runListener_advances loads db raw rest⟩

/-- Claim C10, witness: the overview success notification for report 7
delivered against an empty task table. -/
theorem C10_missing_task_row_witness :
    find_by_report [] (PyVal.get (PyVal.vobj [("status", PyVal.vstr "success"),
      ("step", PyVal.vstr "overview"), ("report", PyVal.vint 7)]) "report") = none ∧
    (handle_message demoLoads [] "envOverview").caughtError =
      some PyErr.attributeError ∧
    (handle_message demoLoads [] "envOverview").taskWrites = [] ∧
    (handle_message demoLoads [] "envOverview").summarizeCalls = [] ∧
    (handle_message demoLoads [] "envOverview").raised = false ∧
    (runListener demoLoads (⟨[], "envOverview"⟩ ::
      [⟨[taskBothPending], "envAnalysis"⟩])).2 =
      (runListener demoLoads [⟨[taskBothPending], "envAnalysis"⟩]).2 + 1 := by
  exact C10_missing_task_row_caught demoLoads [] "envOverview"
    [⟨[taskBothPending], "envAnalysis"⟩]
    (PyVal.vobj [("userId", PyVal.vint 1), ("message", PyVal.vstr "payloadOverview")])
    (PyVal.vobj [("status", PyVal.vstr "success"), ("step", PyVal.vstr "overview"),
      ("report", PyVal.vint 7)])
    "payloadOverview" rfl rfl (by decide) rfl rfl rfl (Or.inl rfl)
    (by intro t ht; cases ht)

/-! ## Retry-guarded external call
(`report_service.py`, `ReportService.analyze_viewer_retention`) -/

/-- Python exception classes relevant to the retry policy, matched the way
the source matches them: `AttributeError`, `TypeError` and `KeyError` by an
`except (AttributeError, TypeError, KeyError)` clause, the four network
errors by `e.__class__.__name__ in [...]`, and anything else by name. -/
inductive ErrClass
  | attrError
  | typeError
  | keyError
  | connectTimeout
  | readTimeout
  | connectionError
  | timeoutError
  | otherError (name : String)
  deriving Repr, DecidableEq

/-- The first `except (AttributeError, TypeError, KeyError)` clause: these
re-raise immediately. -/
def ErrClass.isFatalInput : ErrClass → Bool
  | attrError => true
  | typeError => true
  | keyError => true
  | _ => false

/-- The class-name test
`e.__class__.__name__ in ['ConnectTimeout', 'ReadTimeout', 'ConnectionError',
'TimeoutError']` selecting the retryable network errors. -/
def ErrClass.isRetryable : ErrClass → Bool
  | connectTimeout => true
  | readTimeout => true
  | connectionError => true
  | timeoutError => true
  | _ => false

/-- The fixed degraded placeholder assigned when all retries are exhausted. -/
def leaveAnalysisPlaceholder : String := "시청자 이탈 분석 실패 (네트워크 타임아웃)"

/-- Outcome of the retry loop of `analyze_viewer_retention`: the value of
`leave_result` on loop exit together with the `asyncio.sleep` delays
performed (in seconds, in order), or the exception re-raised out of the
loop with the delays performed before it. -/
inductive RetryOutcome
  | completes (leave_result : String) (delays : List Nat)
  | raises (e : ErrClass) (delays : List Nat)
  deriving Repr, DecidableEq

/-- The `while retry_count < max_retries` loop of `analyze_viewer_retention`,
with `max_retries = 3`.  `attempt rc` is the outcome of the
`leave_analyize.analyze_leave` call made when `retry_count = rc` (so attempts
are numbered 0, 1, 2).  `fuel` is `max_retries - retry_count`, which is
positive at every call reachable from entry; on success the loop breaks with
the value; on a fatal-input error or an unrecognized error it re-raises; on a
retryable error it increments `retry_count` and, if `retry_count` is still
below `max_retries`, sleeps `retry_count * 5` seconds and continues,
otherwise breaks with the fixed placeholder. -/
def retryLoop (attempt : Nat → Except ErrClass String) :
    Nat → Nat → List Nat → RetryOutcome
  | 0, _, delays => RetryOutcome.completes leaveAnalysisPlaceholder delays
  | fuel + 1, rc, delays =>
      match attempt rc with
      | Except.ok v => RetryOutcome.completes v delays
      | Except.error e =>
          if e.isFatalInput then RetryOutcome.raises e delays
          else if e.isRetryable then
            if fuel = 0 then RetryOutcome.completes leaveAnalysisPlaceholder delays
            else retryLoop attempt fuel (rc + 1) (delays ++ [(rc + 1) * 5])
          else RetryOutcome.raises e delays

/-- The retry-guarded portion of `analyze_viewer_retention`: the loop entered
with `retry_count = 0` and `max_retries = 3`.  (The subsequent persistence of
`leave_result` is outside the retry policy and not modelled here.) -/
def analyze_viewer_retention (attempt : Nat → Except ErrClass String) :
    RetryOutcome :=
  retryLoop attempt 3 0 []

/-! ## Claim C5: retry policy of `analyze_viewer_retention` -/

/-- Claim C5.  Malformed-input errors (`AttributeError`, `TypeError`,
`KeyError`) on the first attempt propagate immediately with no retry and no
delay; three consecutive retryable network failures produce the fixed
degraded placeholder after exactly the two linear-backoff waits of 5 s and
10 s; and a retryable failure on attempts 0 and 1 followed by success on
attempt 2 returns the fetched value after the same two waits. -/
theorem C5_retry_policy (attempt : Nat → Except ErrClass String)
    (e : ErrClass) (v : String)
    (hfatal : e.isFatalInput = true) :
    ((attempt 0 = Except.error e →
        analyze_viewer_retention attempt = RetryOutcome.raises e []) ∧
     ((∀ i < 3, ∃ r, attempt i = Except.error r ∧ r.isRetryable = true) →
        analyze_viewer_retention attempt =
          RetryOutcome.completes leaveAnalysisPlaceholder [5, 10]) ∧
     ((∃ r0, attempt 0 = Except.error r0 ∧ r0.isRetryable = true) →
      (∃ r1, attempt 1 = Except.error r1 ∧ r1.isRetryable = true) →
      attempt 2 = Except.ok v →
        analyze_viewer_retention attempt = RetryOutcome.completes v [5, 10])) := by
  have hnotretry : e.isRetryable = false := by
    cases e <;> simp_all [ErrClass.isFatalInput, ErrClass.isRetryable]
  refine ⟨?_, ?_, ?_⟩
  · intro h0
    simp [analyze_viewer_retention, retryLoop, h0, hfatal]
  · intro h
    obtain ⟨r0, h0, hr0⟩ := h 0 (by norm_num)
    obtain ⟨r1, h1, hr1⟩ := h 1 (by norm_num)
    obtain ⟨r2, h2, hr2⟩ := h 2 (by norm_num)
    have hf0 : r0.isFatalInput = false := by
      cases r0 <;> simp_all [ErrClass.isFatalInput, ErrClass.isRetryable]
    have hf1 : r1.isFatalInput = false := by
      cases r1 <;> simp_all [ErrClass.isFatalInput, ErrClass.isRetryable]
    have hf2 : r2.isFatalInput = false := by
      cases r2 <;> simp_all [ErrClass.isFatalInput, ErrClass.isRetryable]
    simp [analyze_viewer_retention, retryLoop, h0, hr0, hf0, h1, hr1, hf1,
      h2, hr2, hf2]
  · rintro ⟨r0, h0, hr0⟩ ⟨r1, h1, hr1⟩ h2
    have hf0 : r0.isFatalInput = false := by
      cases r0 <;> simp_all [ErrClass.isFatalInput, ErrClass.isRetryable]
    have hf1 : r1.isFatalInput = false := by
      cases r1 <;> simp_all [ErrClass.isFatalInput, ErrClass.isRetryable]
    simp [analyze_viewer_retention, retryLoop, h0, hr0, hf0, h1, hr1, hf1, h2]

/-- Claim C5, witness: a `KeyError` on the first attempt propagates with no
delay; three consecutive `ConnectTimeout` failures yield the placeholder
after waits of 5 s and 10 s; two `ReadTimeout` failures then a success yield
the value after the same waits. -/
theorem C5_retry_policy_witness :
    (analyze_viewer_retention (fun _ => Except.error ErrClass.keyError) =
      RetryOutcome.raises ErrClass.keyError []) ∧
    (analyze_viewer_retention (fun _ => Except.error ErrClass.connectTimeout) =
      RetryOutcome.completes leaveAnalysisPlaceholder [5, 10]) ∧
    (analyze_viewer_retention
        (fun i => if i < 2 then Except.error ErrClass.readTimeout
                  else Except.ok "analysis ok") =
      RetryOutcome.completes "analysis ok" [5, 10]) := by
  refine ⟨?_, ?_, ?_⟩
  · exact (C5_retry_policy (fun _ => Except.error ErrClass.keyError)
      ErrClass.keyError "" rfl).1 rfl
  · exact (C5_retry_policy (fun _ => Except.error ErrClass.connectTimeout)
      ErrClass.keyError "" rfl).2.1
      (fun i _ => ⟨ErrClass.connectTimeout, rfl, rfl⟩)
  · exact (C5_retry_policy
      (fun i => if i < 2 then Except.error ErrClass.readTimeout
                else Except.ok "analysis ok")
      ErrClass.keyError "analysis ok" rfl).2.2
      ⟨ErrClass.readTimeout, rfl, rfl⟩ ⟨ErrClass.readTimeout, rfl, rfl⟩ rfl

/-! ## Work Dispatcher
(`report_controller.py`, `create_report` and `create_report_v2`) -/

/-- The `Step` enum of `core.kafka.message`.
Modelled from the spec: `core/kafka/message.py` is not part of the sources;
§6 gives the dispatch payload `{task_id, report_id, step, google_access_token,
skip_vector_save?}` and the glossary lists the steps `overview` and
`analysis`, matching the `Step.overview` / `Step.analysis` uses in the
controller. -/
inductive Step
  | overview
  | analysis
  deriving Repr, DecidableEq

/-- String identifier of a step as it appears in notifications and in the
listener's recognized-step list `["overview", "analysis"]`. -/
def Step.name : Step → String
  | overview => "overview"
  | analysis => "analysis"

/-- The steps the coordination layer tracks and dispatches: exactly the two
steps the Completion Listener recognizes. -/
def trackedSteps : List Step := [Step.overview, Step.analysis]

/-- The dispatch `Message` of `core.kafka.message`.
Modelled from the spec: `core/kafka/message.py` is not part of the sources;
§6 specifies the payload fields `{task_id, report_id, step,
google_access_token, skip_vector_save?}`, matching the keyword arguments the
controller passes (with `skip_vector_save` defaulted when absent, as in the
v1 construction sites). -/
structure Message where
  task_id : Int
  report_id : Int
  step : Step
  google_access_token : String
  skip_vector_save : Bool := false
  deriving Repr, DecidableEq

/-- Result of a `create_report` call: the persisted task row and the
`(topic, message)` publications, in order. -/
structure CreateReportResult where
  task : Task
  published : List (String × Message)
  deriving Repr, DecidableEq

/-- Embedding of `create_report` (POST `/reports/v1`).  `report_id` and
`task_id` stand for the ids the database assigns to the saved report and
task rows.  The controller saves a report, saves a task with
`overview_status = PENDING`, `analysis_status = PENDING`,
`idea_status = COMPLETED`, then publishes the overview message to
`"overview-topic"` and the analysis message to `"analysis-topic"`, each
carrying the task id, report id, step and the caller's Google access
token. -/
def create_report (googleAccessToken : String) (report_id task_id : Int) :
    CreateReportResult :=
  let task : Task :=
    { report_id := report_id, overview_status := Status.pending,
      analysis_status := Status.pending, idea_status := Status.completed }
  let overview_message : Message :=
    { task_id := task_id, report_id := report_id, step := Step.overview,
      google_access_token := googleAccessToken }
  let analysis_message : Message :=
    { task_id := task_id, report_id := report_id, step := Step.analysis,
      google_access_token := googleAccessToken }
  { task := task,
    published := [("overview-topic", overview_message),
                  ("analysis-topic", analysis_message)] }

/-- Embedding of `create_report_v2` (POST `/reports/v2`): identical to
`create_report` except that both messages carry `skip_vector_save = True`
and are published to the `-v2` topics. -/
def create_report_v2 (googleAccessToken : String) (report_id task_id : Int) :
    CreateReportResult :=
  let task : Task :=
    { report_id := report_id, overview_status := Status.pending,
      analysis_status := Status.pending, idea_status := Status.completed }
  let overview_message : Message :=
    { task_id := task_id, report_id := report_id, step := Step.overview,
      google_access_token := googleAccessToken, skip_vector_save := true }
  let analysis_message : Message :=
    { task_id := task_id, report_id := report_id, step := Step.analysis,
      google_access_token := googleAccessToken, skip_vector_save := true }
  { task := task,
    published := [("overview-topic-v2", overview_message),
                  ("analysis-topic-v2", analysis_message)] }

/-- Status of the step tracked by a given status column of the created task
row: the column the Completion Listener later reads for that step. -/
def Task.stepStatus (t : Task) : Step → Status
  | Step.overview => t.overview_status
  | Step.analysis => t.analysis_status

/-! ## Claim C6: dispatcher persists PENDING steps and fans out one message
per step -/

/-- Claim C6.  Both report-creation variants persist a task whose tracked
step statuses are all `PENDING` and publish exactly one message per tracked
step, in the order overview then analysis, to that step's own topic; each
message carries the unit of work's ids (`task_id`, `report_id`), the step
identifier and the caller's credentials, and the v2 variant additionally
sets the per-variant flag `skip_vector_save`. -/
theorem C6_dispatcher_pending_and_fanout (googleAccessToken : String)
    (report_id task_id : Int) :
    ((create_report googleAccessToken report_id task_id).task.stepStatus
        Step.overview = Status.pending) ∧
    ((create_report googleAccessToken report_id task_id).task.stepStatus
        Step.analysis = Status.pending) ∧
    ((create_report_v2 googleAccessToken report_id task_id).task.stepStatus
        Step.overview = Status.pending) ∧
    ((create_report_v2 googleAccessToken report_id task_id).task.stepStatus
        Step.analysis = Status.pending) ∧
    ((create_report googleAccessToken report_id task_id).published =
      trackedSteps.map (fun step =>
        (step.name ++ "-topic",
         { task_id := task_id, report_id := report_id, step := step,
           google_access_token := googleAccessToken,
           skip_vector_save := false }))) ∧
    ((create_report_v2 googleAccessToken report_id task_id).published =
      trackedSteps.map (fun step =>
        (step.name ++ "-topic-v2",
         { task_id := task_id, report_id := report_id, step := step,
           google_access_token := googleAccessToken,
           skip_vector_save := true }))) := by
  exact ⟨rfl, rfl, rfl, rfl, rfl, rfl⟩

/-! ## Stampede-safe fetch caches
(`external/youtube/transcript_service.py` and
`external/youtube/video_detail_service.py`)

Cache values are modelled at the level of the structured payloads (the
`json.dumps`/`json.loads` round trip through the store is the identity on
them).  Redis operations are oracles that either return or raise; the runs
record the redis operations attempted, the successful cache writes and the
number of upstream calls. -/

/-- One `FetchedTranscriptSnippet` as used by `_fetch_and_structure`: the
`text`, `start` and `duration` attributes (times as integers; no claim
involves fractional arithmetic). -/
structure RawSnippet where
  text : String
  start : Int
  duration : Int
  deriving Repr, DecidableEq

/-- One entry of the structured transcript built by `_fetch_and_structure`:
`text`, `start_time`, `end_time = start + duration`. -/
structure Snippet where
  text : String
  start_time : Int
  end_time : Int
  deriving Repr, DecidableEq

/-- `TranscriptService.fetch_transcript`: the YouTube API call wrapped in a
`try` that catches every exception, prints, and returns the empty list — an
upstream failure never raises out of `fetch_transcript`. -/
def fetch_transcript (api : Except String (List RawSnippet)) :
    List RawSnippet :=
  match api with
  | Except.error _ => []
  | Except.ok l => l

/-- `TranscriptService._fetch_and_structure`: fetch, return `[]` when the
result is falsy, else map each entry to
`(text, start_time = start, end_time = start + duration)`. -/
def fetch_and_structure (api : Except String (List RawSnippet)) :
    List Snippet :=
  let transcription := fetch_transcript api
  if transcription.isEmpty then []
  else transcription.map (fun e =>
    { text := e.text, start_time := e.start, end_time := e.start + e.duration })

/-- A redis operation attempted by either cache, with the arguments relevant
to the claims (key and TTL). -/
inductive ROp
  | rget (key : String)
  | rsetnx (key : String) (ttl : Nat)
  | rsetex (key : String) (ttl : Nat)
  | rdel (key : String)
  deriving Repr, DecidableEq

/-- Whether an operation is the atomic set-if-absent lock acquisition. -/
def ROp.isSetnx : ROp → Bool
  | rsetnx _ _ => true
  | _ => false

/-- The 30-day transcript TTL (`30 * 24 * 3600` seconds). -/
def transcriptTTL : Nat := 30 * 24 * 3600

/-- Oracles for one `get_structured_transcript` call: whether
`get_redis_client()` returned a client, the outcome of each redis operation
(`Except.error` models a raised redis exception), the outcome of the `GET`
issued by the n-th poll iteration, and the outcome of the n-th YouTube API
call made during this invocation. -/
structure TranscriptEnv where
  available : Bool
  getResult : Except Unit (Option (List Snippet))
  setNxResult : Except Unit Bool
  setexResult : Except Unit Unit
  delResult : Except Unit Unit
  pollResults : Nat → Except Unit (Option (List Snippet))
  apiResults : Nat → Except String (List RawSnippet)

/-- Observable run of one `get_structured_transcript` call.  The source
catches every exception (`fetch_transcript` swallows upstream errors and the
two `except Exception` blocks swallow redis errors), so the call always
returns a list. -/
structure TranscriptRun where
  result : List Snippet
  ops : List ROp
  cacheWrites : List (String × Nat × List Snippet)
  apiCalls : Nat
  deriving Repr, DecidableEq

/-- Result of the waiter's poll loop. -/
inductive PollResult
  | found (v : List Snippet)
  | exhausted
  | rerror
  deriving Repr, DecidableEq

/-- The `for attempt in range(30)` wait loop of the lock loser: sleep, `GET`
the cache key, return on a value; a redis error aborts into the outer
`except`; after 30 misses the loop ends. -/
def pollLoop (polls : Nat → Except Unit (Option (List Snippet)))
    (key : String) : Nat → Nat → PollResult × List ROp
  | 0, _ => (PollResult.exhausted, [])
  | n + 1, i =>
      match polls i with
      | Except.error _ => (PollResult.rerror, [ROp.rget key])
      | Except.ok (some v) => (PollResult.found v, [ROp.rget key])
      | Except.ok none =>
          let rest := pollLoop polls key n (i + 1)
          (rest.1, ROp.rget key :: rest.2)

/-- Embedding of `TranscriptService.get_structured_transcript`.

Control flow of the source: no client → direct fetch; `GET cache_key` — a
redis error → direct fetch, a value → return it; on a miss,
`SET lock_key NX EX 30` — a redis error → direct fetch (outer `except`); if
acquired, fetch, `SETEX cache_key (30 days)` and return the value, with
`DELETE lock_key` in a `finally`; an exception from `SETEX` or `DELETE`
reaches the outer `except`, which performs one more direct fetch; if not
acquired, poll up to 30 times, returning the first cached value, a poll
error again reaching the outer `except`, and after 30 misses fall back to a
direct unsynchronized fetch. -/
def get_structured_transcript (env : TranscriptEnv) (video_id : String) :
    TranscriptRun :=
  let cache_key := "transcript:" ++ video_id
  let lock_key := "transcript:lock:" ++ video_id
  if !env.available then
    { result := fetch_and_structure (env.apiResults 0), ops := [],
      cacheWrites := [], apiCalls := 1 }
  else
    match env.getResult with
    | Except.error _ =>
        { result := fetch_and_structure (env.apiResults 0),
          ops := [ROp.rget cache_key], cacheWrites := [], apiCalls := 1 }
    | Except.ok (some cached) =>
        { result := cached, ops := [ROp.rget cache_key],
          cacheWrites := [], apiCalls := 0 }
    | Except.ok none =>
        match env.setNxResult with
        | Except.error _ =>
            { result := fetch_and_structure (env.apiResults 0),
              ops := [ROp.rget cache_key, ROp.rsetnx lock_key 30],
              cacheWrites := [], apiCalls := 1 }
        | Except.ok true =>
            let structured := fetch_and_structure (env.apiResults 0)
            match env.setexResult, env.delResult with
            | Except.ok _, Except.ok _ =>
                { result := structured,
                  ops := [ROp.rget cache_key, ROp.rsetnx lock_key 30,
                    ROp.rsetex cache_key transcriptTTL, ROp.rdel lock_key],
                  cacheWrites := [(cache_key, transcriptTTL, structured)],
                  apiCalls := 1 }
            | Except.ok _, Except.error _ =>
                { result := fetch_and_structure (env.apiResults 1),
                  ops := [ROp.rget cache_key, ROp.rsetnx lock_key 30,
                    ROp.rsetex cache_key transcriptTTL, ROp.rdel lock_key],
                  cacheWrites := [(cache_key, transcriptTTL, structured)],
                  apiCalls := 2 }
            | Except.error _, _ =>
                { result := fetch_and_structure (env.apiResults 1),
                  ops := [ROp.rget cache_key, ROp.rsetnx lock_key 30,
                    ROp.rsetex cache_key transcriptTTL, ROp.rdel lock_key],
                  cacheWrites := [], apiCalls := 2 }
        | Except.ok false =>
            let pr := pollLoop env.pollResults cache_key 30 0
            match pr.1 with
            | PollResult.found v =>
                { result := v,
                  ops := [ROp.rget cache_key, ROp.rsetnx lock_key 30] ++ pr.2,
                  cacheWrites := [], apiCalls := 0 }
            | PollResult.exhausted =>
                { result := fetch_and_structure (env.apiResults 0),
                  ops := [ROp.rget cache_key, ROp.rsetnx lock_key 30] ++ pr.2,
                  cacheWrites := [], apiCalls := 1 }
            | PollResult.rerror =>
                { result := fetch_and_structure (env.apiResults 0),
                  ops := [ROp.rget cache_key, ROp.rsetnx lock_key 30] ++ pr.2,
                  cacheWrites := [], apiCalls := 1 }

/-- Oracles for one `get_video_details` call: client availability, the cache
`GET`, the `SETEX`, and the outcome of the n-th `_fetch_video_details` call
(which, unlike the transcript fetch, re-raises its errors). -/
structure VideoEnv (α : Type) where
  available : Bool
  getResult : Except Unit (Option α)
  setexResult : Except Unit Unit
  fetchResults : Nat → Except String α

/-- Observable run of one `get_video_details` call: the returned value or
the propagated upstream error, the redis operations attempted, successful
cache writes, and the number of `_fetch_video_details` calls. -/
structure VideoRun (α : Type) where
  result : Except String α
  ops : List ROp
  cacheWrites : List (String × Nat × α)
  fetchCalls : Nat

/-- Embedding of `VideoDetailService.get_video_details`.

Control flow of the source: no client → direct `_fetch_video_details`;
inside one `try`: `GET cache_key`, return a hit; on a miss call
`_fetch_video_details` and `SETEX cache_key 300`; any exception in the
`try` — redis `GET`/`SETEX` failures and also a raising first fetch — is
caught by `except Exception`, which calls `_fetch_video_details` once more
and returns its outcome (propagating its error, if any).  No locking of any
kind is performed. -/
def get_video_details {α : Type} (env : VideoEnv α) (video_id : String) :
    VideoRun α :=
  let cache_key := "video_detail:" ++ video_id
  if !env.available then
    { result := env.fetchResults 0, ops := [], cacheWrites := [],
      fetchCalls := 1 }
  else
    match env.getResult with
    | Except.error _ =>
        { result := env.fetchResults 0, ops := [ROp.rget cache_key],
          cacheWrites := [], fetchCalls := 1 }
    | Except.ok (some v) =>
        { result := Except.ok v, ops := [ROp.rget cache_key],
          cacheWrites := [], fetchCalls := 0 }
    | Except.ok none =>
        match env.fetchResults 0 with
        | Except.error _ =>
            { result := env.fetchResults 1, ops := [ROp.rget cache_key],
              cacheWrites := [], fetchCalls := 2 }
        | Except.ok d =>
            match env.setexResult with
            | Except.ok _ =>
                { result := Except.ok d,
                  ops := [ROp.rget cache_key, ROp.rsetex cache_key 300],
                  cacheWrites := [(cache_key, 300, d)], fetchCalls := 1 }
            | Except.error _ =>
                { result := env.fetchResults 1,
                  ops := [ROp.rget cache_key, ROp.rsetex cache_key 300],
                  cacheWrites := [], fetchCalls := 2 }

/-- A transcript environment with a healthy redis, a cold cache, and a lock
acquisition that succeeds, parametrized by the upstream API outcomes. -/
def transcriptColdEnv (api : Nat → Except String (List RawSnippet)) :
    TranscriptEnv :=
  { available := true, getResult := Except.ok none,
    setNxResult := Except.ok true, setexResult := Except.ok (),
    delResult := Except.ok (), pollResults := fun _ => Except.ok none,
    apiResults := api }

/-- A video-details environment with a healthy redis and a cold cache. -/
def videoColdEnv : VideoEnv Nat :=
  { available := true, getResult := Except.ok none,
    setexResult := Except.ok (), fetchResults := fun _ => Except.ok 42 }

/-- If some in-range poll `GET` raises after any number of misses, the wait
loop aborts with a redis error (into the outer `except`). -/
theorem pollLoop_error_result (polls : Nat → Except Unit (Option (List Snippet)))
    (key : String) :
    ∀ (n i j : Nat), i ≤ j → j < i + n → polls j = Except.error () →
      (∀ k, i ≤ k → k < j → polls k = Except.ok none) →
      (pollLoop polls key n i).1 = PollResult.rerror := by
  intro n
  induction n with
  | zero => intro i j h1 h2 _ _; omega
  | succ m ih =>
      intro i j hij hlt herr hmiss
      by_cases hji : j = i
      · subst hji
        simp [pollLoop, herr]
      · have hi : polls i = Except.ok none :=
          hmiss i (le_refl i) (by omega)
        simp only [pollLoop, hi]
        exact ih (i + 1) j (by omega) (by omega) herr
          (fun k hk1 hk2 => hmiss k (by omega) hk2)

/-! ## Claim C4: upstream failure while the stampede lock is held -/

/-- Claim C4, counterexample.  With a healthy redis, a cold cache and the
lock acquired, an upstream YouTube failure does not propagate and does leave
a cached value: `fetch_transcript` swallows the error and returns `[]`, the
empty list is written under `transcript:v` with the 30-day TTL, and the call
returns `[]` to the caller (the lock delete does run). -/
theorem C4_counterexample :
    (get_structured_transcript
        (transcriptColdEnv (fun _ => Except.error "YouTube API failure"))
        "v").cacheWrites = [("transcript:v", transcriptTTL, [])] ∧
    (get_structured_transcript
        (transcriptColdEnv (fun _ => Except.error "YouTube API failure"))
        "v").result = [] ∧
    (get_structured_transcript
        (transcriptColdEnv (fun _ => Except.error "YouTube API failure"))
        "v").ops =
      [ROp.rget "transcript:v", ROp.rsetnx "transcript:lock:v" 30,
       ROp.rsetex "transcript:v" transcriptTTL, ROp.rdel "transcript:lock:v"] := by
  exact ⟨rfl, rfl, rfl⟩

/-- Claim C4, amended.  If the upstream fetch fails while the stampede lock
is held, `fetch_transcript` swallows the error and returns the empty list;
the empty list is cached under the cache key with the 30-day TTL and
returned to the caller, and the lock is released via the `finally` delete —
no error is propagated. -/
theorem C4_failed_fetch_caches_empty (env : TranscriptEnv)
    (video_id e : String)
    (hav : env.available = true)
    (hget : env.getResult = Except.ok none)
    (hnx : env.setNxResult = Except.ok true)
    (hsetex : env.setexResult = Except.ok ())
    (hdel : env.delResult = Except.ok ())
    (hapi : env.apiResults 0 = Except.error e) :
    (get_structured_transcript env video_id).cacheWrites =
      [("transcript:" ++ video_id, transcriptTTL, [])] ∧
    (get_structured_transcript env video_id).result = [] ∧
    (get_structured_transcript env video_id).ops =
      [ROp.rget ("transcript:" ++ video_id),
       ROp.rsetnx ("transcript:lock:" ++ video_id) 30,
       ROp.rsetex ("transcript:" ++ video_id) transcriptTTL,
       ROp.rdel ("transcript:lock:" ++ video_id)] := by
  simp [get_structured_transcript, hav, hget, hnx, hsetex, hdel, hapi,
    fetch_and_structure, fetch_transcript]

/-- Claim C4, witness: the amended theorem at the concrete cold environment
with a failing YouTube call. -/
theorem C4_failed_fetch_witness :
    (get_structured_transcript
        (transcriptColdEnv (fun _ => Except.error "quota exceeded"))
        "w").cacheWrites = [("transcript:w", transcriptTTL, [])] ∧
    (get_structured_transcript
        (transcriptColdEnv (fun _ => Except.error "quota exceeded"))
        "w").result = [] ∧
    (get_structured_transcript
        (transcriptColdEnv (fun _ => Except.error "quota exceeded"))
        "w").ops =
      [ROp.rget "transcript:w", ROp.rsetnx "transcript:lock:w" 30,
       ROp.rsetex "transcript:w" transcriptTTL, ROp.rdel "transcript:lock:w"] :=
  C4_failed_fetch_caches_empty
    (transcriptColdEnv (fun _ => Except.error "quota exceeded"))
    "w" "quota exceeded" rfl rfl rfl rfl rfl rfl

/-! ## Claim C7: cache-store failures degrade to a direct fetch -/

/-- Claim C7.  For both cached fetch operations, every cache-store fault at
every step — no client, a raising `GET`, a raising lock `SET NX`, a raising
`SETEX`, a raising lock-release `DELETE`, or a raising poll `GET` at any
iteration of the wait loop — is caught locally and the operation returns the
value of a direct fetch call: with a functioning upstream, the transcript
call returns the structured transcript and the video call returns the
fetched details (not an error), so neither operation fails because the
cache store is unavailable. -/
theorem C7_cache_faults_degrade_to_direct_fetch {α : Type}
    (tEnv : TranscriptEnv) (vEnv : VideoEnv α) (tid vid : String)
    (l : List RawSnippet) (v : α)
    (htapi : ∀ i, tEnv.apiResults i = Except.ok l)
    (hvf : ∀ i, vEnv.fetchResults i = Except.ok v)
    (htFault : tEnv.available = false ∨ tEnv.getResult = Except.error () ∨
      (tEnv.getResult = Except.ok none ∧
        (tEnv.setNxResult = Except.error () ∨
         (tEnv.setNxResult = Except.ok true ∧
           (tEnv.setexResult = Except.error () ∨
            tEnv.delResult = Except.error ())) ∨
         (tEnv.setNxResult = Except.ok false ∧
           ∃ j, j < 30 ∧ tEnv.pollResults j = Except.error () ∧
             ∀ k, k < j → tEnv.pollResults k = Except.ok none))))
    (hvFault : vEnv.available = false ∨ vEnv.getResult = Except.error () ∨
      (vEnv.getResult = Except.ok none ∧ vEnv.setexResult = Except.error ())) :
    (get_structured_transcript tEnv tid).result =
      fetch_and_structure (Except.ok l) ∧
    (get_video_details vEnv vid).result = Except.ok v := by
  constructor
  · rcases htFault with h | h |
      ⟨hg, h | ⟨hnx, hx | hdel⟩ | ⟨hnx, j, hj30, herr, hmiss⟩⟩
    · simp [get_structured_transcript, h, htapi 0]
    · rcases hta : tEnv.available with _ | _
      · simp [get_structured_transcript, hta, htapi 0]
      · simp [get_structured_transcript, hta, h, htapi 0]
    · rcases hta : tEnv.available with _ | _
      · simp [get_structured_transcript, hta, htapi 0]
      · simp [get_structured_transcript, hta, hg, h, htapi 0]
    · rcases hta : tEnv.available with _ | _
      · simp [get_structured_transcript, hta, htapi 0]
      · simp [get_structured_transcript, hta, hg, hnx, hx, htapi 1]
    · rcases hta : tEnv.available with _ | _
      · simp [get_structured_transcript, hta, htapi 0]
      · cases hx2 : tEnv.setexResult with
        | error u =>
            simp [get_structured_transcript, hta, hg, hnx, hx2, htapi 1]
        | ok u =>
            simp [get_structured_transcript, hta, hg, hnx, hx2, hdel, htapi 1]
    · rcases hta : tEnv.available with _ | _
      · simp [get_structured_transcript, hta, htapi 0]
      · have hploop : (pollLoop tEnv.pollResults ("transcript:" ++ tid) 30 0).1 =
            PollResult.rerror :=
          pollLoop_error_result tEnv.pollResults ("transcript:" ++ tid) 30 0 j
            (Nat.zero_le j) (by omega) herr (fun k _ hk2 => hmiss k hk2)
        simp [get_structured_transcript, hta, hg, hnx, hploop, htapi 0]
  · rcases hvFault with h | h | ⟨hg, hx⟩
    · simp [get_video_details, h, hvf 0]
    · rcases hva : vEnv.available with _ | _
      · simp [get_video_details, hva, hvf 0]
      · simp [get_video_details, hva, h, hvf 0]
    · rcases hva : vEnv.available with _ | _
      · simp [get_video_details, hva, hvf 0]
      · simp [get_video_details, hva, hg, hvf 0, hx, hvf 1]

/-- Claim C7, witness: three concrete fault points per the theorem — a
raising lock `SET NX`, a raising lock-release `DELETE` after a successful
`SETEX`, and a poll `GET` raising at the third wait iteration on the
transcript side, paired with a raising `SETEX`, a raising `GET` and an
unavailable client on the video side; every call still returns the
direct-fetch value. -/
theorem C7_cache_faults_witness :
    ((get_structured_transcript
        { available := true, getResult := Except.ok none,
          setNxResult := Except.error (), setexResult := Except.ok (),
          delResult := Except.ok (), pollResults := fun _ => Except.ok none,
          apiResults := fun _ => Except.ok [⟨"hi", 0, 5⟩] } "v").result =
      fetch_and_structure (Except.ok [⟨"hi", 0, 5⟩]) ∧
     (get_video_details
        { available := true, getResult := Except.ok none,
          setexResult := Except.error (),
          fetchResults := fun _ => Except.ok (9 : Nat) } "v").result =
      Except.ok 9) ∧
    ((get_structured_transcript
        { available := true, getResult := Except.ok none,
          setNxResult := Except.ok true, setexResult := Except.ok (),
          delResult := Except.error (), pollResults := fun _ => Except.ok none,
          apiResults := fun _ => Except.ok [⟨"hi", 0, 5⟩] } "v").result =
      fetch_and_structure (Except.ok [⟨"hi", 0, 5⟩]) ∧
     (get_video_details
        { available := true, getResult := Except.error (),
          setexResult := Except.ok (),
          fetchResults := fun _ => Except.ok (9 : Nat) } "v").result =
      Except.ok 9) ∧
    ((get_structured_transcript
        { available := true, getResult := Except.ok none,
          setNxResult := Except.ok false, setexResult := Except.ok (),
          delResult := Except.ok (),
          pollResults := fun i => if i = 2 then Except.error () else Except.ok none,
          apiResults := fun _ => Except.ok [⟨"hi", 0, 5⟩] } "v").result =
      fetch_and_structure (Except.ok [⟨"hi", 0, 5⟩]) ∧
     (get_video_details
        { available := false, getResult := Except.ok none,
          setexResult := Except.ok (),
          fetchResults := fun _ => Except.ok (9 : Nat) } "v").result =
      Except.ok 9) := by
  refine ⟨?_, ?_, ?_⟩
  · exact C7_cache_faults_degrade_to_direct_fetch
      { available := true, getResult := Except.ok none,
        setNxResult := Except.error (), setexResult := Except.ok (),
        delResult := Except.ok (), pollResults := fun _ => Except.ok none,
        apiResults := fun _ => Except.ok [⟨"hi", 0, 5⟩] }
      { available := true, getResult := Except.ok none,
        setexResult := Except.error (),
        fetchResults := fun _ => Except.ok (9 : Nat) }
      "v" "v" [⟨"hi", 0, 5⟩] 9 (fun _ => rfl) (fun _ => rfl)
      (Or.inr (Or.inr ⟨rfl, Or.inl rfl⟩))
      (Or.inr (Or.inr ⟨rfl, rfl⟩))
  · exact C7_cache_faults_degrade_to_direct_fetch
      { available := true, getResult := Except.ok none,
        setNxResult := Except.ok true, setexResult := Except.ok (),
        delResult := Except.error (), pollResults := fun _ => Except.ok none,
        apiResults := fun _ => Except.ok [⟨"hi", 0, 5⟩] }
      { available := true, getResult := Except.error (),
        setexResult := Except.ok (),
        fetchResults := fun _ => Except.ok (9 : Nat) }
      "v" "v" [⟨"hi", 0, 5⟩] 9 (fun _ => rfl) (fun _ => rfl)
      (Or.inr (Or.inr ⟨rfl, Or.inr (Or.inl ⟨rfl, Or.inr rfl⟩)⟩))
      (Or.inr (Or.inl rfl))
  · exact C7_cache_faults_degrade_to_direct_fetch
      { available := true, getResult := Except.ok none,
        setNxResult := Except.ok false, setexResult := Except.ok (),
        delResult := Except.ok (),
        pollResults := fun i => if i = 2 then Except.error () else Except.ok none,
        apiResults := fun _ => Except.ok [⟨"hi", 0, 5⟩] }
      { available := false, getResult := Except.ok none,
        setexResult := Except.ok (),
        fetchResults := fun _ => Except.ok (9 : Nat) }
      "v" "v" [⟨"hi", 0, 5⟩] 9 (fun _ => rfl) (fun _ => rfl)
      (Or.inr (Or.inr ⟨rfl, Or.inr (Or.inr ⟨rfl, 2, by omega, rfl,
        fun k hk => by
          have hk2 : ¬ k = 2 := by omega
          simp [hk2]⟩)⟩))
      (Or.inl rfl)

/-! ## Claim C9: is the stampede-lock primitive applied to both caches? -/

/-- Claim C9, counterexample.  On a cold-cache miss with a healthy redis,
`get_video_details` invokes its fetch after issuing only a `GET` and then a
`SETEX` — it performs no set-if-absent lock acquisition at all, contradicting
the claim that both cache classes attempt the atomic lock before fetching. -/
theorem C9_counterexample :
    (get_video_details videoColdEnv "v").fetchCalls = 1 ∧
    (get_video_details videoColdEnv "v").ops =
      [ROp.rget "video_detail:v", ROp.rsetex "video_detail:v" 300] ∧
    ((get_video_details videoColdEnv "v").ops.countP ROp.isSetnx) = 0 := by
  exact ⟨rfl, rfl, rfl⟩

/-- Claim C9, amended.  Only the transcript cache applies the stampede-lock
primitive: on a cold miss `get_structured_transcript` issues the atomic
set-if-absent acquisition of the lock key (30 s lock TTL) before its fetch
and writes the value with the 30-day TTL, while `get_video_details` performs
plain unlocked cache-aside — `GET`, fetch, `SETEX` with the 300 s TTL — with
no set-if-absent operation anywhere in its run. -/
theorem C9_lock_only_in_transcript_cache {α : Type}
    (tEnv : TranscriptEnv) (vEnv : VideoEnv α) (tid vid : String) (d : α)
    (hta : tEnv.available = true) (htg : tEnv.getResult = Except.ok none)
    (htnx : tEnv.setNxResult = Except.ok true)
    (htx : tEnv.setexResult = Except.ok ()) (htd : tEnv.delResult = Except.ok ())
    (hva : vEnv.available = true) (hvg : vEnv.getResult = Except.ok none)
    (hvf : vEnv.fetchResults 0 = Except.ok d)
    (hvx : vEnv.setexResult = Except.ok ()) :
    (get_structured_transcript tEnv tid).ops =
      [ROp.rget ("transcript:" ++ tid),
       ROp.rsetnx ("transcript:lock:" ++ tid) 30,
       ROp.rsetex ("transcript:" ++ tid) transcriptTTL,
       ROp.rdel ("transcript:lock:" ++ tid)] ∧
    (get_video_details vEnv vid).ops =
      [ROp.rget ("video_detail:" ++ vid),
       ROp.rsetex ("video_detail:" ++ vid) 300] ∧
    ((get_video_details vEnv vid).ops.countP ROp.isSetnx) = 0 := by
  refine ⟨?_, ?_, ?_⟩
  · simp [get_structured_transcript, hta, htg, htnx, htx, htd]
  · simp [get_video_details, hva, hvg, hvf, hvx]
  · have hops : (get_video_details vEnv vid).ops =
        [ROp.rget ("video_detail:" ++ vid),
         ROp.rsetex ("video_detail:" ++ vid) 300] := by
      simp [get_video_details, hva, hvg, hvf, hvx]
    rw [hops]
    rfl

/-- Claim C9, witness: the amended theorem at the two concrete cold-cache
environments. -/
theorem C9_lock_only_witness :
    (get_structured_transcript (transcriptColdEnv (fun _ => Except.ok [])) "v").ops =
      [ROp.rget "transcript:v", ROp.rsetnx "transcript:lock:v" 30,
       ROp.rsetex "transcript:v" transcriptTTL, ROp.rdel "transcript:lock:v"] ∧
    (get_video_details videoColdEnv "v").ops =
      [ROp.rget "video_detail:v", ROp.rsetex "video_detail:v" 300] ∧
    ((get_video_details videoColdEnv "v").ops.countP ROp.isSetnx) = 0 :=
  C9_lock_only_in_transcript_cache
    (transcriptColdEnv (fun _ => Except.ok [])) videoColdEnv "v" "v" 42
    rfl rfl rfl rfl rfl rfl rfl rfl rfl

/-! ## Interleaving model of concurrent `get_structured_transcript` callers

For the stampede property the sequential model is not enough: N asyncio
tasks run the same function against one shared redis, interleaving at every
`await`.  Each caller is modelled as a small state machine whose atomic
actions are the redis operations and the upstream fetch of the source
(healthy redis, deterministic upstream — the success-path conditions under
which the spec states the property); a schedule picks which caller acts
next.  `fetches` counts the YouTube API calls a caller has performed. -/

/-- Program counter of one concurrent caller of
`get_structured_transcript`, at the suspension points of the source: about
to `GET` the cache; about to attempt `SET NX` on the lock; holding the lock
and about to fetch; about to `SETEX` the fetched value; about to `DELETE`
the lock; inside the poll loop with the given number of poll iterations
remaining; past the exhausted poll bound and about to fetch
unsynchronized; or returned. -/
inductive PC
  | readCache
  | tryLock
  | fetching
  | writeCache
  | releaseLock
  | polling (remaining : Nat)
  | fallback
  | done
  deriving Repr, DecidableEq

/-- One concurrent caller: its program counter and how many upstream fetch
calls it has made. -/
structure CProc where
  pc : PC
  fetches : Nat
  deriving Repr, DecidableEq

/-- Shared state: whether the cache key holds a value, whether the lock key
is set, and the callers. -/
structure CState where
  cached : Bool
  locked : Bool
  procs : List CProc
  deriving Repr, DecidableEq

/-- One atomic action of a caller, following the source: a cache hit
returns; a miss proceeds to the lock attempt; `SET NX` either acquires (when
the lock key is free) or enters the 30-iteration poll loop; the lock holder
fetches, writes the cache, releases the lock and returns; a poller returns
on a cached value, and after its 30th miss falls back to one unsynchronized
fetch.  Returns the new cache flag, lock flag and caller. -/
def procStep (cached locked : Bool) (p : CProc) : Bool × Bool × CProc :=
  match p.pc with
  | PC.readCache =>
      (cached, locked, { p with pc := if cached then PC.done else PC.tryLock })
  | PC.tryLock =>
      if locked then (cached, locked, { p with pc := PC.polling 30 })
      else (cached, true, { p with pc := PC.fetching })
  | PC.fetching =>
      (cached, locked, { pc := PC.writeCache, fetches := p.fetches + 1 })
  | PC.writeCache => (true, locked, { p with pc := PC.releaseLock })
  | PC.releaseLock => (cached, false, { p with pc := PC.done })
  | PC.polling 0 => (cached, locked, { p with pc := PC.fallback })
  | PC.polling (n + 1) =>
      (cached, locked, { p with pc := if cached then PC.done else PC.polling n })
  | PC.fallback =>
      (cached, locked, { pc := PC.done, fetches := p.fetches + 1 })
  | PC.done => (cached, locked, p)

/-- Let caller `i` take one atomic action (no-op for an out-of-range
index). -/
def stepAt (s : CState) (i : Nat) : CState :=
  match s.procs.get? i with
  | none => s
  | some p =>
      let r := procStep s.cached s.locked p
      { cached := r.1, locked := r.2.1, procs := s.procs.set i r.2.2 }

/-- Run a schedule: the sequence of caller indices chosen to act. -/
def runSched (s : CState) : List Nat → CState
  | [] => s
  | i :: sched => runSched (stepAt s i) sched

/-- N concurrent callers against a cold cache: no value, no lock, every
caller about to read the cache, no fetches performed. -/
def initState (n : Nat) : CState :=
  { cached := false, locked := false,
    procs := List.replicate n { pc := PC.readCache, fetches := 0 } }

/-- Total number of upstream fetch invocations across all callers. -/
def totalFetches (s : CState) : Nat :=
  (s.procs.map (fun p => p.fetches)).sum

/-- Replacing one element of a list shifts a mapped sum by the difference of
the images. -/
theorem sum_map_set_eq {α : Type} (f : α → Nat) (l : List α) :
    ∀ (i : Nat) (p q : α), l.get? i = some p →
      ((l.set i q).map f).sum + f p = (l.map f).sum + f q := by
  induction l with
  | nil => intro i p q hp; simp at hp
  | cons a tl ih =>
      intro i p q hp
      cases i with
      | zero =>
          simp only [List.get?] at hp
          injection hp with hp
          subst hp
          simp only [List.set, List.map_cons, List.sum_cons]
          omega
      | succ j =>
          simp only [List.get?] at hp
          have h := ih j p q hp
          simp only [List.set, List.map_cons, List.sum_cons]
          omega

/-- One atomic action performs at most one fetch. -/
theorem procStep_fetches (c l : Bool) (p : CProc) :
    ((procStep c l p).2.2).fetches = p.fetches ∨
    ((procStep c l p).2.2).fetches = p.fetches + 1 := by
  rcases p with ⟨pc, f⟩
  cases pc with
  | tryLock => by_cases hl : l <;> simp [procStep, hl]
  | polling n => cases n <;> simp [procStep]
  | _ => simp [procStep]

/-- One step changes the total fetch count by zero or one. -/
theorem totalFetches_stepAt (s : CState) (i : Nat) :
    totalFetches (stepAt s i) = totalFetches s ∨
    totalFetches (stepAt s i) = totalFetches s + 1 := by
  unfold stepAt
  cases hg : s.procs.get? i with
  | none => exact Or.inl rfl
  | some p =>
      have hs := sum_map_set_eq (fun p => p.fetches) s.procs i p
        ((procStep s.cached s.locked p).2.2) hg
      dsimp only at hs
      rcases procStep_fetches s.cached s.locked p with h | h <;>
        · unfold totalFetches
          dsimp only
          omega

/-- The total fetch count never decreases. -/
theorem totalFetches_stepAt_mono (s : CState) (i : Nat) :
    totalFetches s ≤ totalFetches (stepAt s i) := by
  rcases totalFetches_stepAt s i with h | h <;> omega

/-- Fetch credit still available to a caller at a given program point: a
caller past its fetch (writer or returned) holds no credit. -/
def credit : PC → Nat
  | PC.readCache => 1
  | PC.tryLock => 1
  | PC.fetching => 1
  | PC.writeCache => 0
  | PC.releaseLock => 0
  | PC.polling _ => 1
  | PC.fallback => 1
  | PC.done => 0

/-- Potential: fetches already performed plus credits still available. -/
def phi (s : CState) : Nat :=
  (s.procs.map (fun p => p.fetches + credit p.pc)).sum

/-- Each atomic action pays for any fetch it performs out of the caller's
credit: the per-caller potential never grows. -/
theorem procStep_phi_le (c l : Bool) (p : CProc) :
    ((procStep c l p).2.2).fetches + credit ((procStep c l p).2.2).pc ≤
      p.fetches + credit p.pc := by
  rcases p with ⟨pc, f⟩
  cases pc with
  | readCache => by_cases hc : c <;> simp [procStep, credit, hc]
  | tryLock => by_cases hl : l <;> simp [procStep, credit, hl]
  | polling n =>
      cases n with
      | zero => simp [procStep, credit]
      | succ m => by_cases hc : c <;> simp [procStep, credit, hc]
  | _ => simp [procStep, credit]

/-- The global potential never grows under a step. -/
theorem phi_stepAt_le (s : CState) (i : Nat) : phi (stepAt s i) ≤ phi s := by
  unfold stepAt
  cases hg : s.procs.get? i with
  | none => exact le_refl _
  | some p =>
      have hs := sum_map_set_eq (fun p => p.fetches + credit p.pc) s.procs i p
        ((procStep s.cached s.locked p).2.2) hg
      dsimp only at hs
      have hle := procStep_phi_le s.cached s.locked p
      unfold phi
      dsimp only
      omega

/-- The global potential never grows under any schedule. -/
theorem phi_runSched_le (sched : List Nat) :
    ∀ s : CState, phi (runSched s sched) ≤ phi s := by
  induction sched with
  | nil => intro s; exact le_refl _
  | cons i sched ih =>
      intro s
      exact le_trans (ih (stepAt s i)) (phi_stepAt_le s i)

/-- The fetch count is bounded by the potential. -/
theorem totalFetches_le_phi (s : CState) : totalFetches s ≤ phi s :=
  List.sum_le_sum (fun _ _ => Nat.le_add_right _ _)

/-- The initial potential of N cold callers is N. -/
theorem phi_initState (n : Nat) : phi (initState n) = n := by
  simp [phi, initState, credit, List.map_replicate, List.sum_replicate,
    smul_eq_mul]

/-- Program points witnessing that some fetch has already happened: the
lock winner past its fetch, or a returned caller. -/
def trigPC (pc : PC) : Prop :=
  pc = PC.writeCache ∨ pc = PC.releaseLock ∨ pc = PC.done

/-- States in which at least one fetch is already accounted for. -/
def fetchEvidence (s : CState) : Prop :=
  s.cached = true ∨ ∃ p ∈ s.procs, trigPC p.pc

/-- If a step produces fetch evidence, either the evidence already existed
or the step itself performed a fetch. -/
theorem fetchEvidence_source (s : CState) (i : Nat)
    (hpre : fetchEvidence (stepAt s i)) :
    fetchEvidence s ∨ totalFetches (stepAt s i) = totalFetches s + 1 := by
  rcases hg : s.procs.get? i with _ | p
  · left
    unfold stepAt at hpre
    rw [hg] at hpre
    exact hpre
  · have hmem : p ∈ s.procs := List.get?_mem hg
    have hsum := sum_map_set_eq (fun p => p.fetches) s.procs i p
      ((procStep s.cached s.locked p).2.2) hg
    dsimp only at hsum
    by_cases hc : s.cached = true
    · exact Or.inl (Or.inl hc)
    · cases hp : p.pc with
      | writeCache => exact Or.inl (Or.inr ⟨p, hmem, Or.inl hp⟩)
      | releaseLock => exact Or.inl (Or.inr ⟨p, hmem, Or.inr (Or.inl hp)⟩)
      | done => exact Or.inl (Or.inr ⟨p, hmem, Or.inr (Or.inr hp)⟩)
      | fetching =>
          right
          unfold stepAt
          rw [hg]
          unfold totalFetches
          dsimp only
          have hq : ((procStep s.cached s.locked p).2.2).fetches =
              p.fetches + 1 := by
            simp [procStep, hp]
          omega
      | fallback =>
          right
          unfold stepAt
          rw [hg]
          unfold totalFetches
          dsimp only
          have hq : ((procStep s.cached s.locked p).2.2).fetches =
              p.fetches + 1 := by
            simp [procStep, hp]
          omega
      | readCache =>
          left
          unfold stepAt at hpre
          rw [hg] at hpre
          rcases hpre with hpre | ⟨q, hq, htq⟩
          · exfalso
            apply hc
            revert hpre
            simp [procStep, hp]
          · right
            rcases List.mem_or_eq_of_mem_set hq with hq2 | hq2
            · exact ⟨q, hq2, htq⟩
            · exfalso
              subst hq2
              revert htq
              simp only [Bool.not_eq_true] at hc
              simp [procStep, hp, hc, trigPC]
      | tryLock =>
          left
          unfold stepAt at hpre
          rw [hg] at hpre
          rcases hpre with hpre | ⟨q, hq, htq⟩
          · exfalso
            apply hc
            revert hpre
            by_cases hl : s.locked = true <;> simp [procStep, hp, hl]
          · right
            rcases List.mem_or_eq_of_mem_set hq with hq2 | hq2
            · exact ⟨q, hq2, htq⟩
            · exfalso
              subst hq2
              revert htq
              by_cases hl : s.locked = true <;>
                simp [procStep, hp, hl, trigPC]
      | polling n =>
          left
          unfold stepAt at hpre
          rw [hg] at hpre
          rcases hpre with hpre | ⟨q, hq, htq⟩
          · exfalso
            apply hc
            revert hpre
            rcases n with _ | m <;> simp [procStep, hp]
          · right
            rcases List.mem_or_eq_of_mem_set hq with hq2 | hq2
            · exact ⟨q, hq2, htq⟩
            · exfalso
              subst hq2
              revert htq
              simp only [Bool.not_eq_true] at hc
              rcases n with _ | m <;> simp [procStep, hp, hc, trigPC]

/-- Along any schedule, fetch evidence in the final state implies at least
one fetch was performed, provided the starting state satisfies the same
implication. -/
theorem fetchEvidence_runSched (sched : List Nat) :
    ∀ s : CState, (fetchEvidence s → 1 ≤ totalFetches s) →
      fetchEvidence (runSched s sched) → 1 ≤ totalFetches (runSched s sched) := by
  induction sched with
  | nil => intro s h; exact h
  | cons i sched ih =>
      intro s h
      apply ih
      intro hpre
      rcases fetchEvidence_source s i hpre with hold | hinc
      · exact le_trans (h hold) (totalFetches_stepAt_mono s i)
      · omega

/-- In the cold initial state there is no fetch evidence. -/
theorem fetchEvidence_initState (n : Nat) :
    fetchEvidence (initState n) → 1 ≤ totalFetches (initState n) := by
  rintro (h | ⟨p, hp, ht⟩)
  · simp [initState] at h
  · have hrep := List.eq_of_mem_replicate hp
    subst hrep
    rcases ht with h | h | h <;> simp at h

/-! ## Claim C3: stampede property of `get_structured_transcript` -/

/-- A schedule for three callers: caller 0 reads a miss and acquires the
lock; callers 1 and 2 read misses, fail the lock, run all 30 polls against
the still-empty cache, time out and perform their fallback fetches; caller 0
then fetches, writes the cache and releases the lock. -/
def c3Schedule : List Nat :=
  [0, 0, 1, 1, 2, 2] ++ List.replicate 32 1 ++ List.replicate 32 2 ++ [0, 0, 0]

/-- Claim C3, counterexample.  Three concurrent callers on a cold cache:
caller 0 loses the processor right after acquiring the lock; callers 1 and 2
miss the cache, fail acquisition, exhaust all 30 polls before the winner's
value is cached, and each performs its own fallback fetch; caller 0 then
fetches, caches and releases.  The completed run performs 3 upstream
fetches — two extra invocations through the bounded-poll-timeout fallback,
not at most one. -/
theorem C3_counterexample :
    totalFetches (runSched (initState 3) c3Schedule) = 3 ∧
    runSched (initState 3) c3Schedule =
      { cached := true, locked := false,
        procs := [{ pc := PC.done, fetches := 1 }, { pc := PC.done, fetches := 1 },
                  { pc := PC.done, fetches := 1 }] } ∧
    ¬ totalFetches (runSched (initState 3) c3Schedule) ≤ 2 := by
  exact ⟨rfl, rfl, by decide⟩

/-- Claim C3, amended.  For N concurrent callers with a cold cache, under
every interleaving the wrapped fetch function is invoked at most N times
(each caller at most once — each timed-out waiter may force one extra
invocation, and likewise a caller that attempts the lock after the winner
released it), and at least once as soon as any caller has returned; the
"exactly once plus at most one timeout extra" bound of the claim does not
hold in general. -/
theorem C3_fetch_count_bounds (n : Nat) (sched : List Nat) :
    totalFetches (runSched (initState n) sched) ≤ n ∧
    (∀ p ∈ (runSched (initState n) sched).procs, p.pc = PC.done →
      1 ≤ totalFetches (runSched (initState n) sched)) := by
  constructor
  · exact le_trans (totalFetches_le_phi _)
      (le_trans (phi_runSched_le sched (initState n)) (le_of_eq (phi_initState n)))
  · intro p hp hd
    exact fetchEvidence_runSched sched (initState n) (fetchEvidence_initState n)
      (Or.inr ⟨p, hp, Or.inr (Or.inr hd)⟩)

/-- Claim C3, witness for the amended bounds: one caller running to
completion alone performs exactly one fetch (both bounds tight). -/
theorem C3_fetch_count_witness :
    totalFetches (runSched (initState 1) [0, 0, 0, 0, 0]) ≤ 1 ∧
    1 ≤ totalFetches (runSched (initState 1) [0, 0, 0, 0, 0]) := by
  have h := C3_fetch_count_bounds 1 [0, 0, 0, 0, 0]
  exact ⟨h.1, h.2 { pc := PC.done, fetches := 1 } (by decide) rfl⟩

end Channeling
